import Mathlib

/-!
Verification of the quota-gated PDF remediation pipeline.

Shallow embedding of:
- `pdf2html/content_accessibility_utility_on_aws/utils/quota_monitor.py`
  (class QuotaMonitor: track_api_call, _increment_usage_counter,
   get_current_usage, _send_alert, check_quota_available),
- `lambda/pdf_analyzer/main.py` (estimate_elements_from_page, analyze_pdf,
  classify_complexity),
- `lambda/start_remediation/main.py` (lambda_handler),
- the Step Functions workflow graph built in `app.py`.

External collaborators (DynamoDB, S3, SNS, CloudWatch) are modelled by
explicit outcome parameters (success / raised exception), and the side
effects the code requests from them are returned as explicit effect
records.  Python floats are idealised as rationals.
-/

namespace PDFA

/-! ### String literals used by the code -/

def statusProcessing : String := "processing"

def statusPendingApproval : String := "pending_approval"

def levelCritical : String := "CRITICAL"

def levelWarning : String := "WARNING"

def usageUnavailableMsg : String := "Usage tracking not available"

/-! ### QuotaMonitor (quota_monitor.py)

`quota_limit` is `Optional[int]` in the source.  `usage_table` is whether
DynamoDB initialisation succeeded (`self.usage_table` is not None);
`sns_ok` is whether the SNS client and topic are configured and a publish
succeeds (`_send_alert` catches its own failures and returns False).
-/

structure QuotaMonitor where
  api_name : String
  quota_limit : Option Int
  warning_threshold : ℚ
  critical_threshold : ℚ
  usage_table : Bool
  sns_ok : Bool
deriving Repr, DecidableEq

/-- The DynamoDB `get_item` collaborator outcome for `get_current_usage`:
`Except.error` = the call raised; `Except.ok none` = no item for the
period (usage 0); `Except.ok (some n)` = item with `usage_count = n`. -/
def FetchOutcome := Except String (Option Nat)

/-- `get_current_usage`, projected to the `usage_count` field, which is all
`check_quota_available` reads from the returned dict.  The dict has an
`error` key exactly when this returns `Except.error`: when the table is
unavailable or the read raised. -/
def get_current_usage (m : QuotaMonitor) (fetch : FetchOutcome) : Except String Nat :=
  if m.usage_table then
    match fetch with
    | Except.error e => Except.error e
    | Except.ok none => Except.ok 0
    | Except.ok (some n) => Except.ok n
  else Except.error usageUnavailableMsg

/-- `check_quota_available`.  Python truthiness: `if not self.quota_limit`
is taken when the limit is `None` or `0`.  On a usage-read error the call
is allowed ("Could not check quota, allowing call"). -/
def check_quota_available (m : QuotaMonitor) (fetch : FetchOutcome) : Bool :=
  match m.quota_limit with
  | none => true
  | some l =>
    if l = 0 then true
    else
      match get_current_usage m fetch with
      | Except.error _ => true
      | Except.ok u => decide ((u : Int) < l)

/-! ### C1 and C9 -/

/-- C1 (amended): with a configured limit `L > 0` and a successful usage
read of `U`, the admission check returns Denied (false) iff `U ≥ L`; it
returns Admitted (true) when the limit is unset (`None`) or exactly `0`;
but for a negative limit `L < 0` it returns Denied for every read usage
count, not Admitted. -/
theorem check_quota_admission_spec (m : QuotaMonitor) (fetch : FetchOutcome) :
    (∀ (L : Int) (U : Nat), m.quota_limit = some L → 0 < L → m.usage_table = true →
      (check_quota_available m (Except.ok (some U)) = false ↔ L ≤ (U : Int)))
    ∧ (m.quota_limit = none → check_quota_available m fetch = true)
    ∧ (m.quota_limit = some 0 → check_quota_available m fetch = true)
    ∧ (∀ (L : Int) (U : Nat), m.quota_limit = some L → L < 0 → m.usage_table = true →
      check_quota_available m (Except.ok (some U)) = false) := by
  refine ⟨?_, ?_, ?_, ?_⟩
  · intro L U hL hpos htab
    simp only [check_quota_available, hL, get_current_usage, htab]
    rw [if_neg (by omega)]
    simp only [if_true, decide_eq_false_iff_not, not_lt]
  · intro h
    simp [check_quota_available, h]
  · intro h
    simp [check_quota_available, h]
  · intro L U hL hneg htab
    simp only [check_quota_available, hL, get_current_usage, htab]
    rw [if_neg (by omega)]
    simp only [if_true, decide_eq_false_iff_not, not_lt]
    omega

/-- Witness for `check_quota_admission_spec`: at limit 10 and usage 10 the
gate denies; at limit 10 and usage 9 it admits; unset and zero limits
admit; limit -1 denies at usage 0. -/
theorem check_quota_admission_spec_witness :
    check_quota_available ⟨"adobe", some 10, 4/5, 19/20, true, true⟩ (Except.ok (some 10)) = false
    ∧ check_quota_available ⟨"adobe", some 10, 4/5, 19/20, true, true⟩ (Except.ok (some 9)) ≠ false
    ∧ check_quota_available ⟨"adobe", none, 4/5, 19/20, true, true⟩ (Except.ok (some 999)) = true
    ∧ check_quota_available ⟨"adobe", some 0, 4/5, 19/20, true, true⟩ (Except.ok (some 999)) = true
    ∧ check_quota_available ⟨"adobe", some (-1), 4/5, 19/20, true, true⟩ (Except.ok (some 0)) = false := by
  refine ⟨?_, ?_, ?_, ?_, ?_⟩
  · exact ((check_quota_admission_spec ⟨"adobe", some 10, 4/5, 19/20, true, true⟩
      (Except.ok (some 10))).1 10 10 rfl (by norm_num) rfl).mpr (by norm_num)
  · intro hfalse
    have h := ((check_quota_admission_spec ⟨"adobe", some 10, 4/5, 19/20, true, true⟩
      (Except.ok (some 9))).1 10 9 rfl (by norm_num) rfl).mp hfalse
    norm_num at h
  · exact (check_quota_admission_spec ⟨"adobe", none, 4/5, 19/20, true, true⟩
      (Except.ok (some 999))).2.1 rfl
  · exact (check_quota_admission_spec ⟨"adobe", some 0, 4/5, 19/20, true, true⟩
      (Except.ok (some 999))).2.2.1 rfl
  · exact (check_quota_admission_spec ⟨"adobe", some (-1), 4/5, 19/20, true, true⟩
      (Except.ok (some 0))).2.2.2 (-1) 0 rfl (by norm_num) rfl

/-- C1 counterexample: the claim says the gate admits whenever the limit is
`≤ 0`, but at the concrete limit `-1` (which is `≤ 0`) with a successful
usage read of `0` the code returns Denied (false): `not (-1)` is falsy in
Python only for `None` and `0`, so a negative limit falls through to
`usage_count < quota_limit`, which never holds. -/
theorem check_quota_negative_limit_denies :
    (-1 : Int) ≤ 0
    ∧ check_quota_available ⟨"adobe", some (-1), 4/5, 19/20, true, true⟩
        (Except.ok (some 0)) = false := by
  constructor
  · norm_num
  · rfl

/-- C9: with a configured limit `L > 0`, if reading the current usage fails
(`get_current_usage` returns an error, from a missing table or a raising
read) then `check_quota_available` returns Admitted (true): the gate fails
open on an unavailable ledger. -/
theorem check_quota_fails_open (m : QuotaMonitor) (fetch : FetchOutcome)
    (L : Int) (e : String) (hL : m.quota_limit = some L) (hpos : 0 < L)
    (herr : get_current_usage m fetch = Except.error e) :
    check_quota_available m fetch = true := by
  simp only [check_quota_available, hL]
  rw [if_neg (by omega), herr]

/-- Witness for `check_quota_fails_open`: a monitor whose usage table is
unavailable admits the call despite a positive limit. -/
theorem check_quota_fails_open_witness :
    check_quota_available ⟨"adobe", some 5, 4/5, 19/20, false, true⟩ (Except.ok (some 100)) = true := by
  exact check_quota_fails_open ⟨"adobe", some 5, 4/5, 19/20, false, true⟩
    (Except.ok (some 100)) 5 usageUnavailableMsg rfl (by norm_num) rfl

/-! ### track_api_call (quota_monitor.py) -/

/-- An alert request handed to `_send_alert` (an SNS publish attempt).
`exceeded` distinguishes the "QUOTA EXCEEDED" CRITICAL message at ≥100%
from the threshold CRITICAL message. -/
structure Alert where
  level : String
  exceeded : Bool
deriving Repr, DecidableEq

/-- The dictionary `track_api_call` returns. -/
structure TrackResult where
  success : Bool
  usage_count : Nat
  quota_limit : Option Int
  usage_percentage : ℚ
  alert_sent : Bool
  quota_exceeded : Bool
deriving Repr, DecidableEq

/-- The side effects `track_api_call` requests from its collaborators:
CloudWatch metric puts, the DynamoDB counter update, SNS alert attempts. -/
structure Effects where
  api_call_metric : Bool
  error_metric : Bool
  quota_usage_metric : Bool
  increment_called : Bool
  alerts : List Alert
deriving Repr, DecidableEq

/-- `_send_alert`: returns true iff the SNS client and topic are configured
and the publish succeeds (the function catches its own failures). -/
def _send_alert (m : QuotaMonitor) (_level : String) : Bool :=
  m.sns_ok

/-- `_increment_usage_counter`: the DynamoDB `update_item` outcome is the
`update` parameter (`Except.error` = the call raised).  The function
returns 0 when the table is unavailable and catches a raising update,
returning 0; it never raises. -/
def _increment_usage_counter (m : QuotaMonitor) (update : Except String Nat) : Nat :=
  if m.usage_table then
    match update with
    | Except.ok n => n
    | Except.error _ => 0
  else 0

/-- Python truthiness of an optional string: `None` and the empty string
are falsy, any other string truthy. -/
def pyTruthyStr (s : Option String) : Bool :=
  match s with
  | none => false
  | some s => decide (s ≠ "")

/-- `track_api_call`.  The call-count metric is always put; the error-kind
metric is guarded by `if error_type:`, Python truthiness, so it is put
exactly when `error_type` is neither `None` nor the empty string.  Usage
is tracked only when `success` and the table is available; `if
self.quota_limit and self.quota_limit > 0` is Python truthiness
(`None`/`0` falsy) plus the positivity test.  The threshold ladder fires
at most one alert, highest first.  All collaborator failures are caught
(`_send_alert` and `_increment_usage_counter` internally, metric puts
return booleans), so the function always returns its result dict. -/
def track_api_call (m : QuotaMonitor) (_operation : String) (success : Bool)
    (error_type : Option String) (update : Except String Nat) :
    TrackResult × Effects :=
  let r0 : TrackResult :=
    { success := success, usage_count := 0, quota_limit := m.quota_limit,
      usage_percentage := 0, alert_sent := false, quota_exceeded := false }
  let e0 : Effects :=
    { api_call_metric := true, error_metric := pyTruthyStr error_type,
      quota_usage_metric := false, increment_called := false, alerts := [] }
  if success && m.usage_table then
    let usage_count := _increment_usage_counter m update
    let r1 := { r0 with usage_count := usage_count }
    let e1 := { e0 with increment_called := true }
    match m.quota_limit with
    | none => (r1, e1)
    | some l =>
      if l = 0 then (r1, e1)
      else if 0 < l then
        let pct : ℚ := (usage_count : ℚ) / (l : ℚ)
        let r2 := { r1 with usage_percentage := pct }
        let e2 := { e1 with quota_usage_metric := true }
        if 1 ≤ pct then
          ({ r2 with quota_exceeded := true, alert_sent := _send_alert m levelCritical },
           { e2 with alerts := [⟨levelCritical, true⟩] })
        else if m.critical_threshold ≤ pct then
          ({ r2 with alert_sent := _send_alert m levelCritical },
           { e2 with alerts := [⟨levelCritical, false⟩] })
        else if m.warning_threshold ≤ pct then
          ({ r2 with alert_sent := _send_alert m levelWarning },
           { e2 with alerts := [⟨levelWarning, false⟩] })
        else (r2, e2)
      else (r1, e1)
  else (r0, e0)

/-! ### C2, C5, C6 -/

/-- C2: for a call with a configured limit `L > 0` and the default
thresholds (warning 0.8, critical 0.95), at most one alert is emitted and
it is the single highest threshold crossed by the resulting percentage:
the exceeded-level CRITICAL at ≥ 100%, else CRITICAL at ≥ 95%, else
WARNING at ≥ 80%; in particular a call ending at ≥ 95% never emits
WARNING. -/
theorem track_alert_priority (m : QuotaMonitor) (op : String) (success : Bool)
    (errt : Option String) (update : Except String Nat) (L : Int)
    (hm : m.quota_limit = some L) (hL : 0 < L)
    (hw : m.warning_threshold = 4/5) (hc : m.critical_threshold = 19/20) :
    (track_api_call m op success errt update).2.alerts.length ≤ 1
    ∧ (1 ≤ (track_api_call m op success errt update).1.usage_percentage →
        (track_api_call m op success errt update).2.alerts = [⟨levelCritical, true⟩])
    ∧ ((track_api_call m op success errt update).1.usage_percentage < 1 →
        (19 : ℚ)/20 ≤ (track_api_call m op success errt update).1.usage_percentage →
        (track_api_call m op success errt update).2.alerts = [⟨levelCritical, false⟩])
    ∧ ((track_api_call m op success errt update).1.usage_percentage < 19/20 →
        (4 : ℚ)/5 ≤ (track_api_call m op success errt update).1.usage_percentage →
        (track_api_call m op success errt update).2.alerts = [⟨levelWarning, false⟩])
    ∧ ((19 : ℚ)/20 ≤ (track_api_call m op success errt update).1.usage_percentage →
        ∀ a ∈ (track_api_call m op success errt update).2.alerts, a.level ≠ levelWarning) := by
  by_cases hs : (success && m.usage_table) = true
  · have hne : ¬ (L = 0) := by omega
    simp only [track_api_call, hm, hw, hc, _send_alert]
    rw [if_pos hs, if_neg hne, if_pos hL]
    split_ifs with h100 hcrit hwarn
    · refine ⟨by simp, fun _ => rfl, ?_, ?_, ?_⟩
      · intro h1 _
        exact absurd h100 (not_le.mpr h1)
      · intro h1 _
        exfalso
        linarith
      · intro _ a ha
        simp only [List.mem_singleton] at ha
        subst ha
        decide
    · refine ⟨by simp, ?_, fun _ _ => rfl, ?_, ?_⟩
      · intro h1
        exact absurd h1 h100
      · intro h1 _
        exfalso
        linarith
      · intro _ a ha
        simp only [List.mem_singleton] at ha
        subst ha
        decide
    · refine ⟨by simp, ?_, ?_, fun _ _ => rfl, ?_⟩
      · intro h1
        exact absurd h1 h100
      · intro _ h2
        exact absurd h2 hcrit
      · intro h2
        exact absurd h2 hcrit
    · refine ⟨by simp, ?_, ?_, ?_, ?_⟩
      · intro h1
        exact absurd (by linarith : (4 : ℚ)/5 ≤ _) hwarn
      · intro _ h2
        exact absurd (by linarith : (4 : ℚ)/5 ≤ _) hwarn
      · intro _ h3
        exact absurd h3 hwarn
      · intro h2
        exact absurd (le_trans (by norm_num) h2 : (4 : ℚ)/5 ≤ _) hwarn
  · have hs0 : (success && m.usage_table) = false := Bool.eq_false_iff.mpr hs
    norm_num [track_api_call, hs0]

/-- Witness for `track_alert_priority`: limit 100, a successful call whose
update returns count 97 → percentage 97% ∈ [95%, 100%) → the single alert
is the (non-exceeded) CRITICAL one. -/
theorem track_alert_priority_witness :
    (track_api_call ⟨"adobe", some 100, 4/5, 19/20, true, true⟩ "AutotagPDF" true none
      (Except.ok 97)).2.alerts = [⟨levelCritical, false⟩] := by
  have hpct : (track_api_call ⟨"adobe", some 100, 4/5, 19/20, true, true⟩ "AutotagPDF" true none
      (Except.ok 97)).1.usage_percentage = 97/100 := by
    norm_num [track_api_call, _increment_usage_counter]
  exact (track_alert_priority ⟨"adobe", some 100, 4/5, 19/20, true, true⟩ "AutotagPDF" true none
    (Except.ok 97) 100 rfl (by norm_num) rfl rfl).2.2.1
    (by rw [hpct]; norm_num) (by rw [hpct]; norm_num)

/-- C5: a call recorded with `success = False` does not attempt the usage
counter increment and reports `usage_count = 0`; the counter update is
attempted only inside the `success`-and-table branch, so a denied
admission (which records no successful call) never advances usage. -/
theorem track_failed_call_no_increment (m : QuotaMonitor) (op : String)
    (errt : Option String) (update : Except String Nat) :
    (track_api_call m op false errt update).1.usage_count = 0
    ∧ (track_api_call m op false errt update).2.increment_called = false := by
  simp [track_api_call]

/-- C6: when the usage ledger is unavailable — the table was never
initialised, or the counter update raises — `track_api_call` still
requests the call-count metric (and the error-kind metric exactly when a
truthy `error_type` is given: `if error_type:` is falsy for `None` and
the empty string), returns its result dict normally (it is total: every
failure is caught), and leaves the usage fields of the result at their
zero defaults, the code's representation of unknown usage. -/
theorem track_ledger_unavailable_degrades (m : QuotaMonitor) (op : String)
    (errt : Option String) (update : Except String Nat) (success : Bool)
    (hun : m.usage_table = false ∨ ∃ e, update = Except.error e) :
    (track_api_call m op success errt update).2.api_call_metric = true
    ∧ (track_api_call m op success errt update).2.error_metric = pyTruthyStr errt
    ∧ (track_api_call m op success errt update).1.usage_count = 0
    ∧ (track_api_call m op success errt update).1.usage_percentage = 0 := by
  rcases hun with htab | ⟨e, hupd⟩
  · simp [track_api_call, htab]
  · subst hupd
    have hinc : _increment_usage_counter m (Except.error e) = 0 := by
      simp [_increment_usage_counter]
    simp only [track_api_call, hinc]
    rcases m.quota_limit with _ | l
    · split_ifs <;> simp
    · split_ifs <;> simp <;> (try split_ifs) <;> simp

/-- Witness for `track_ledger_unavailable_degrades`: no usage table, a
failed call with a non-empty error type: both metrics still requested
(the error-kind one because "ServiceError" is truthy), usage fields 0. -/
theorem track_ledger_unavailable_degrades_witness :
    (track_api_call ⟨"adobe", some 100, 4/5, 19/20, false, true⟩ "ExtractPDF" false
      (some "ServiceError") (Except.ok 1)).2.api_call_metric = true
    ∧ (track_api_call ⟨"adobe", some 100, 4/5, 19/20, false, true⟩ "ExtractPDF" false
      (some "ServiceError") (Except.ok 1)).2.error_metric = true
    ∧ (track_api_call ⟨"adobe", some 100, 4/5, 19/20, false, true⟩ "ExtractPDF" false
      (some "ServiceError") (Except.ok 1)).1.usage_count = 0 := by
  have h := track_ledger_unavailable_degrades ⟨"adobe", some 100, 4/5, 19/20, false, true⟩
    "ExtractPDF" (some "ServiceError") (Except.ok 1) false (Or.inl rfl)
  exact ⟨h.1, h.2.1.trans (by decide), h.2.2.1⟩

/-! ### PDF analyzer (lambda/pdf_analyzer/main.py) -/

/-- What `estimate_elements_from_page` reads from a PyPDF2 page: `faulty`
models any page on which text extraction or element counting raises;
`ok text xobjects` carries the characters of the extracted text and, when
the resources dictionary has an XObject entry, the subtype names of its
XObjects.  Text is a character list so the Python string primitives below
are fully executable. -/
inductive PageData
  | faulty
  | ok (text : List Char) (xobjects : Option (List String))
deriving Repr, DecidableEq

def imageSubtype : String := "/Image"

/-- Python `text.split('\n')`: split on every newline; the empty text
gives one empty line, a trailing newline a trailing empty line. -/
def pySplitLines : List Char → List (List Char)
  | [] => [[]]
  | '\n' :: rest => [] :: pySplitLines rest
  | c :: rest =>
    match pySplitLines rest with
    | l :: ls => (c :: l) :: ls
    | [] => [[c]]

/-- The whitespace stripped by Python `str.strip()` (ASCII range). -/
def isPyWhitespace (c : Char) : Bool :=
  c = ' ' || c = '\t' || c = '\n' || c = '\r' || c = '\x0b' || c = '\x0c'

/-- Python `line.strip()`. -/
def pyStrip (line : List Char) : List Char :=
  ((((line.dropWhile isPyWhitespace).reverse).dropWhile isPyWhitespace).reverse)

/-- Python `line.count('  ')`: non-overlapping occurrences of two spaces,
scanning left to right. -/
def countDoubleSpace : List Char → Nat
  | ' ' :: ' ' :: rest => 1 + countDoubleSpace rest
  | _ :: rest => countDoubleSpace rest
  | [] => 0

/-- Per-line contribution of the headings/text-blocks loop: a nonempty
stripped line counts 1 as a regular text block, plus 1 as a potential
heading if it is shorter than 100 characters and starts with an uppercase
character (`len(stripped) < 100 and stripped[0].isupper()`). -/
def elementsFromLine (line : List Char) : Nat :=
  match pyStrip line with
  | [] => 0
  | c :: cs => (if (c :: cs).length < 100 ∧ c.isUpper then 1 else 0) + 1

/-- `line.count('  ') >= 3 or '\t' in line`. -/
def isTableIndicator (line : List Char) : Bool :=
  decide (3 ≤ countDoubleSpace line) || line.contains '\t'

/-- `estimate_elements_from_page`: text blocks and headings per line, plus
2 per table-indicator line (table + cells), plus 2 per XObject of subtype
`/Image` (image + alt-text potential), floored at 5; any exception during
extraction or counting yields the fallback estimate 10. -/
def estimate_elements_from_page (p : PageData) : Nat :=
  match p with
  | PageData.faulty => 10
  | PageData.ok text xobjects =>
    let lines := pySplitLines text
    let textElements := (lines.map elementsFromLine).sum
    let tableIndicators := (lines.filter isTableIndicator).length
    let imageElements :=
      match xobjects with
      | none => 0
      | some subtypes => (subtypes.filter (fun s => s = imageSubtype)).length * 2
    max (textElements + tableIndicators * 2 + imageElements) 5

/-- Round-half-to-even on rationals, as Python `round` on an exact value. -/
def pyRoundHalfEven (q : ℚ) : ℤ :=
  if q - ⌊q⌋ < 1/2 then ⌊q⌋
  else if 1/2 < q - ⌊q⌋ then ⌊q⌋ + 1
  else if ⌊q⌋ % 2 = 0 then ⌊q⌋ else ⌊q⌋ + 1

/-- Python `round(q, d)` idealised over ℚ. -/
def pyRoundTo (d : Nat) (q : ℚ) : ℚ :=
  (pyRoundHalfEven (q * 10 ^ d) : ℚ) / 10 ^ d

def complexitySimple : String := "simple"

def complexityModerate : String := "moderate"

def complexityComplex : String := "complex"

def complexityVeryComplex : String := "very_complex"

/-- `classify_complexity`. -/
def classify_complexity (avg : ℚ) : String :=
  if avg < 5 then complexitySimple
  else if avg < 10 then complexityModerate
  else if avg < 20 then complexityComplex
  else complexityVeryComplex

/-- The fields of the `analyze_pdf` result dict that the analysis itself
computes (file metadata and timestamps omitted). -/
structure AnalysisResult where
  num_pages : Nat
  estimated_elements : Nat
  avg_elements_per_page : ℚ
  estimated_adobe_transactions : Nat
  estimated_cost_percentage : ℚ
  complexity : String
deriving Repr, DecidableEq

/-- `analyze_pdf` on a readable document, given its pages.  Samples the
first `min(num_pages, 10)` pages, extrapolates `avg × num_pages`
truncated to an integer (`int(...)`; the value is nonnegative so this is
the floor), sets transactions 1:1, and reports the cost against the fixed
25000-transaction plan ceiling rounded to 2 decimal places.  On a 0-page
document the Python code raises `ZeroDivisionError` (caught and re-raised
by `analyze_pdf`), modelled as `none`. -/
def analyze_pdf (pages : List PageData) : Option AnalysisResult :=
  let num_pages := pages.length
  let sample_size := min num_pages 10
  if sample_size = 0 then none
  else
    let total_elements := ((pages.take sample_size).map estimate_elements_from_page).sum
    let avg_elements_per_page : ℚ := (total_elements : ℚ) / (sample_size : ℚ)
    let estimated_total_elements : Nat := (⌊avg_elements_per_page * (num_pages : ℚ)⌋).toNat
    let estimated_transactions := estimated_total_elements
    some
      { num_pages := num_pages
        estimated_elements := estimated_total_elements
        avg_elements_per_page := pyRoundTo 1 avg_elements_per_page
        estimated_adobe_transactions := estimated_transactions
        estimated_cost_percentage :=
          pyRoundTo 2 ((estimated_transactions : ℚ) / 25000 * 100)
        complexity := classify_complexity avg_elements_per_page }

/-! ### C7 and C10 -/

/-- Every page contributes at least 5 elements: the per-page count is
floored at 5 and the exception fallback is 10. -/
lemma five_le_estimate (p : PageData) : 5 ≤ estimate_elements_from_page p := by
  cases p with
  | faulty => norm_num [estimate_elements_from_page]
  | ok text xobjects =>
    simp only [estimate_elements_from_page]
    exact le_max_right _ 5

/-- C7 (amended): on a readable document with `P > 0` pages, the analysis
samples exactly the first `min(P, 10)` pages, every sampled page
contributes at least 5 elements, `estimated_elements` is the mean sampled
density times `P` truncated to an integer, `estimated_transactions`
equals `estimated_elements`, and `estimated_cost_percentage` is
transactions over the 25000 plan ceiling times 100, rounded to two
decimal places (the claim omits the rounding that `round(..., 2)`
applies). -/
theorem analyze_pdf_spec (pages : List PageData) (hP : 0 < pages.length) :
    ∃ r, analyze_pdf pages = some r
    ∧ r.num_pages = pages.length
    ∧ (∀ p ∈ pages.take (min pages.length 10), 5 ≤ estimate_elements_from_page p)
    ∧ r.estimated_elements =
        (⌊(((pages.take (min pages.length 10)).map estimate_elements_from_page).sum : ℚ)
          / ((min pages.length 10 : Nat) : ℚ) * (pages.length : ℚ)⌋).toNat
    ∧ r.estimated_adobe_transactions = r.estimated_elements
    ∧ r.estimated_cost_percentage =
        pyRoundTo 2 ((r.estimated_adobe_transactions : ℚ) / 25000 * 100) := by
  have hmin : ¬ (min pages.length 10 = 0) := by omega
  simp only [analyze_pdf]
  rw [if_neg hmin]
  exact ⟨_, rfl, rfl, fun p _ => five_le_estimate p, rfl, rfl, rfl⟩

/-- Witness for `analyze_pdf_spec`: a single faulty page is a document
with `0 < 1` pages on which the analysis succeeds and the transactions
field equals the elements field. -/
theorem analyze_pdf_spec_witness :
    0 < ([PageData.faulty] : List PageData).length
    ∧ ∃ r, analyze_pdf [PageData.faulty] = some r
      ∧ r.estimated_adobe_transactions = r.estimated_elements := by
  refine ⟨by norm_num, ?_⟩
  obtain ⟨r, hr, _, _, _, htr, _⟩ := analyze_pdf_spec [PageData.faulty] (by norm_num)
  exact ⟨r, hr, htr⟩

/-- C7 counterexample: a one-page document whose page yields 6 elements
(six lowercase one-character lines).  The claim says the stored cost
percentage equals `transactions / 25000 × 100`, which is `6/25000×100 =
3/125 = 0.024`; the code stores `round(..., 2) = 0.02 = 1/50` instead. -/
theorem analyze_pdf_cost_rounding_counterexample :
    (analyze_pdf [PageData.ok ['a', '\n', 'b', '\n', 'c', '\n', 'd', '\n', 'e', '\n', 'f'] none]).map
        AnalysisResult.estimated_adobe_transactions = some 6
    ∧ (analyze_pdf [PageData.ok ['a', '\n', 'b', '\n', 'c', '\n', 'd', '\n', 'e', '\n', 'f'] none]).map
        AnalysisResult.estimated_cost_percentage = some (1/50)
    ∧ (1 : ℚ)/50 ≠ (6 : ℚ)/25000 * 100 := by
  have h6 : estimate_elements_from_page
      (PageData.ok ['a', '\n', 'b', '\n', 'c', '\n', 'd', '\n', 'e', '\n', 'f'] none) = 6 := by
    decide
  refine ⟨?_, ?_, by norm_num⟩
  · simp [analyze_pdf, h6]
  · simp [analyze_pdf, h6, pyRoundTo, pyRoundHalfEven]
    norm_num [Int.fract]

/-- C10: the per-page estimator is total — a page on which extraction or
counting raises contributes the fixed fallback 10 — and the document
analysis of any non-empty page list succeeds (no page error propagates;
the sampling loop never fails). -/
theorem estimate_page_fault_isolated (pages : List PageData) (hP : 0 < pages.length) :
    estimate_elements_from_page PageData.faulty = 10
    ∧ (analyze_pdf pages).isSome = true := by
  refine ⟨rfl, ?_⟩
  have hmin : ¬ (min pages.length 10 = 0) := by omega
  simp only [analyze_pdf]
  rw [if_neg hmin]
  rfl

/-- Witness for `estimate_page_fault_isolated`: a document consisting of a
single faulty page analyzes successfully. -/
theorem estimate_page_fault_isolated_witness :
    estimate_elements_from_page PageData.faulty = 10
    ∧ (analyze_pdf [PageData.faulty, PageData.faulty]).isSome = true :=
  estimate_page_fault_isolated [PageData.faulty, PageData.faulty] (by norm_num)

/-! ### Start remediation (lambda/start_remediation/main.py)

The pending-jobs DynamoDB table is a partial map from `job_id` to the job
item; the S3 `copy_object` collaborator outcome is the `copyOk`
parameter.  Job items are modelled with the fields the analyzer writes
and the handler reads. -/

structure JobRecord where
  status : String
  approved_at : Option String
  file_key : String
  file_name : String
  estimated_transactions : Nat
deriving Repr, DecidableEq

def JobTable : Type := String → Option JobRecord

/-- A DynamoDB `update_item`/`put_item` at one key. -/
def setJob (table : JobTable) (jid : String) (j : JobRecord) : JobTable :=
  fun k => if k = jid then some j else table k

def errJobIdRequired : String := "job_id is required"

def errNotApproved : String := "user_approved must be true"

def errAlreadyProcessing : String := "Job is already processing"

def errNotFound (jid : String) : String := "Job " ++ jid ++ " not found"

def errDispatchFailed : String := "Failed to start processing"

/-- The pieces of the HTTP response the handler builds (headers and json
encoding omitted). -/
structure ApiResponse where
  statusCode : Nat
  success : Bool
  error : Option String
deriving Repr, DecidableEq

/-- `lambda_handler` of the start-remediation function.  `job_id` is the
request body field (`none` = absent; Python `if not job_id` also rejects
the empty string); `copyOk` is whether the S3 copy to the watched `pdf/`
location succeeds; `ts` is the approval timestamp.  Returns the response
and the table after the call.  On copy failure the status update is
compensated: status reverts to `pending_approval` (the `approved_at`
written by the first update remains, as the revert only sets status). -/
def start_remediation_handler (table : JobTable) (job_id : Option String)
    (user_approved : Bool) (copyOk : Bool) (ts : String) :
    ApiResponse × JobTable :=
  match job_id with
  | none => (⟨400, false, some errJobIdRequired⟩, table)
  | some jid =>
    if jid = "" then (⟨400, false, some errJobIdRequired⟩, table)
    else if ¬ user_approved then (⟨400, false, some errNotApproved⟩, table)
    else
      match table jid with
      | none => (⟨404, false, some (errNotFound jid)⟩, table)
      | some job =>
        if job.status = statusProcessing then
          (⟨409, false, some errAlreadyProcessing⟩, table)
        else
          let t1 := setJob table jid
            { job with status := statusProcessing, approved_at := some ts }
          if copyOk then
            (⟨200, true, none⟩, t1)
          else
            let t2 := setJob t1 jid
              { job with status := statusPendingApproval, approved_at := some ts }
            (⟨500, false, some errDispatchFailed⟩, t2)

/-! ### C3 and C4 -/

/-- C3: dispatch failure is compensated.  For any call, if the handler
returns an error (non-200), then no job ends in status `processing`
unless it was already `processing` before the call (i.e. had dispatched
work from an earlier approval); and specifically, for an approvable job
whose S3 copy fails, the handler returns 500 and the job's status is
rolled back to `pending_approval`. -/
theorem approve_rollback_on_dispatch_failure
    (table : JobTable) (job_id : Option String) (user_approved copyOk : Bool)
    (ts : String) (r : ApiResponse) (t2 : JobTable)
    (h : start_remediation_handler table job_id user_approved copyOk ts = (r, t2)) :
    (r.statusCode ≠ 200 →
      ∀ j, (t2 j).map JobRecord.status = some statusProcessing →
        (table j).map JobRecord.status = some statusProcessing)
    ∧ (∀ jid job, job_id = some jid → jid ≠ "" → user_approved = true →
        copyOk = false → table jid = some job → job.status ≠ statusProcessing →
        r.statusCode = 500
        ∧ (t2 jid).map JobRecord.status = some statusPendingApproval) := by
  rcases job_id with _ | jid
  · simp only [start_remediation_handler] at h
    injection h with h1 h2
    subst h1
    subst h2
    exact ⟨fun _ j hj => hj, fun jid job heq => nomatch heq⟩
  · simp only [start_remediation_handler] at h
    split at h
    · rename_i hjid
      injection h with h1 h2
      subst h1
      subst h2
      refine ⟨fun _ j hj => hj, ?_⟩
      intro jid2 job heq hne
      injection heq with heq2
      subst heq2
      exact absurd hjid hne
    · split at h
      · rename_i happ
        injection h with h1 h2
        subst h1
        subst h2
        refine ⟨fun _ j hj => hj, ?_⟩
        intro jid2 job heq hne happr
        exact absurd happr happ
      · split at h
        · rename_i htab
          injection h with h1 h2
          subst h1
          subst h2
          refine ⟨fun _ j hj => hj, ?_⟩
          intro jid2 job heq hne happr hcopy htab2
          injection heq with heq2
          subst heq2
          rw [htab] at htab2
          exact nomatch htab2
        · rename_i job htab
          split at h
          · rename_i hproc
            injection h with h1 h2
            subst h1
            subst h2
            refine ⟨fun _ j hj => hj, ?_⟩
            intro jid2 job2 heq hne happr hcopy htab2 hst
            injection heq with heq2
            subst heq2
            rw [htab] at htab2
            injection htab2 with htab3
            subst htab3
            exact absurd hproc hst
          · rename_i hproc
            split at h
            · rename_i hcopy
              injection h with h1 h2
              subst h1
              subst h2
              refine ⟨fun hc => absurd rfl hc, ?_⟩
              intro jid2 job2 heq hne happr hcopyF
              subst hcopy
              exact nomatch hcopyF
            · rename_i hcopy
              have hcf : copyOk = false := by
                cases copyOk
                · rfl
                · exact absurd rfl hcopy
              subst hcf
              injection h with h1 h2
              subst h1
              subst h2
              constructor
              · intro _ j hj
                simp only [setJob] at hj
                by_cases hjj : j = jid
                · rw [if_pos hjj] at hj
                  simp only [Option.map] at hj
                  injection hj with hj2
                  exact absurd hj2 (by decide)
                · rw [if_neg hjj, if_neg hjj] at hj
                  exact hj
              · intro jid2 job2 heq hne happr hcopyF htab2 hst
                injection heq with heq2
                subst heq2
                refine ⟨rfl, ?_⟩
                simp [setJob]


def job1Id : String := "job1"

def pendingJob : JobRecord :=
  { status := statusPendingApproval, approved_at := none,
    file_key := "pdf-upload/a.pdf", file_name := "a.pdf", estimated_transactions := 7 }

def tableWithPendingJob : JobTable :=
  fun k => if k = job1Id then some pendingJob else none

def tsA : String := "2024-01-01T00:00:00"

def tsB : String := "2024-01-01T00:05:00"

/-- Witness for `approve_rollback_on_dispatch_failure`: approving a pending
job whose S3 copy fails returns 500 and leaves the job pending. -/
theorem approve_rollback_witness :
    (start_remediation_handler tableWithPendingJob (some job1Id) true false tsA).1.statusCode = 500
    ∧ ((start_remediation_handler tableWithPendingJob (some job1Id) true false tsA).2 job1Id).map
        JobRecord.status = some statusPendingApproval := by
  have h := approve_rollback_on_dispatch_failure tableWithPendingJob (some job1Id) true false tsA
    (start_remediation_handler tableWithPendingJob (some job1Id) true false tsA).1
    (start_remediation_handler tableWithPendingJob (some job1Id) true false tsA).2 rfl
  exact h.2 job1Id pendingJob rfl (by decide) rfl rfl rfl (by decide)

/-- C4 (amended): `Approve` fails with 404 when the job does not exist and
with 409 exactly when the status is `processing`, both leaving the table
unchanged; it succeeds (200, status flipped to `processing`) for any job
whose status is not `processing` — not only `pending_approval`; approving
the same pending job twice yields the `processing` transition once, the
second call returning 409 with the table unchanged. -/
theorem approve_gate_spec (table : JobTable) (jid ts ts2 : String) (hjid : jid ≠ "") :
    (table jid = none →
      start_remediation_handler table (some jid) true true ts
        = (⟨404, false, some (errNotFound jid)⟩, table))
    ∧ (∀ job, table jid = some job → job.status = statusProcessing →
        start_remediation_handler table (some jid) true true ts
          = (⟨409, false, some errAlreadyProcessing⟩, table))
    ∧ (∀ job, table jid = some job → job.status ≠ statusProcessing →
        (start_remediation_handler table (some jid) true true ts).1.statusCode = 200
        ∧ ((start_remediation_handler table (some jid) true true ts).2 jid).map JobRecord.status
            = some statusProcessing)
    ∧ (∀ job, table jid = some job → job.status = statusPendingApproval →
        start_remediation_handler (start_remediation_handler table (some jid) true true ts).2
            (some jid) true true ts2
          = (⟨409, false, some errAlreadyProcessing⟩,
             (start_remediation_handler table (some jid) true true ts).2)) := by
  refine ⟨?_, ?_, ?_, ?_⟩
  · intro hnone
    simp [start_remediation_handler, hnone, hjid]
  · intro job htab hst
    simp [start_remediation_handler, htab, hjid, hst]
  · intro job htab hst
    constructor
    · simp [start_remediation_handler, htab, hjid, hst]
    · simp [start_remediation_handler, htab, hjid, hst, setJob]
  · intro job htab hst
    have hne : job.status ≠ statusProcessing := by
      rw [hst]
      decide
    set t1 := (start_remediation_handler table (some jid) true true ts).2 with ht1def
    have ht1 : t1 jid = some { job with status := statusProcessing, approved_at := some ts } := by
      rw [ht1def]
      simp [start_remediation_handler, htab, hjid, hne, setJob]
    simp [start_remediation_handler, ht1, hjid]

/-- Witness for `approve_gate_spec`: double approval of the concrete
pending job — the second call returns 409 and does not touch the table. -/
theorem approve_gate_spec_witness :
    start_remediation_handler
        (start_remediation_handler tableWithPendingJob (some job1Id) true true tsA).2
        (some job1Id) true true tsB
      = (⟨409, false, some errAlreadyProcessing⟩,
         (start_remediation_handler tableWithPendingJob (some job1Id) true true tsA).2) :=
  (approve_gate_spec tableWithPendingJob job1Id tsA tsB (by decide)).2.2.2 pendingJob rfl rfl

def completedJob : JobRecord :=
  { status := "completed", approved_at := none, file_key := "pdf-upload/b.pdf",
    file_name := "b.pdf", estimated_transactions := 3 }

def tableWithCompletedJob : JobTable :=
  fun k => if k = job1Id then some completedJob else none

/-- C4 counterexample: the claim says Approve succeeds only when the status
is exactly `pending_approval`, but the code only rejects `processing`: a
job already in status `completed` is approved again with HTTP 200 and
flipped back to `processing`. -/
theorem approve_completed_job_counterexample :
    completedJob.status ≠ statusPendingApproval
    ∧ (start_remediation_handler tableWithCompletedJob (some job1Id) true true tsA).1.statusCode
        = 200
    ∧ ((start_remediation_handler tableWithCompletedJob (some job1Id) true true tsA).2 job1Id).map
        JobRecord.status = some statusProcessing := by
  refine ⟨by decide, by decide, by decide⟩

/-! ### Workflow graph (app.py)

`app.py` builds `chain = map_state.next(java_lambda_task)
.next(add_title_lambda_task).next(a11y_postcheck_lambda_task)` and then
`parallel_state.branch(chain); parallel_state.branch(a11y_precheck_lambda_task)`;
the state machine definition is exactly `parallel_state`.  A branch is a
sequence of state names; an execution is a trace of (state, isStart)
events — `true` marks the state entering, `false` its completion.
Within a branch states run in order; parallel branches interleave freely
and only join when all branches finish (the end of the state machine). -/

def mapStateName : String := "Map"

def javaTaskName : String := "Invoke Java Lambda"

def addTitleTaskName : String := "Invoke Add Title Lambda"

def postcheckTaskName : String := "a11y_postcheck"

def precheckTaskName : String := "a11y_precheck"

/-- The chain built in app.py line 396. -/
def mainChain : List String :=
  [mapStateName, javaTaskName, addTitleTaskName, postcheckTaskName]

/-- `parallel_state` with its two branches, the whole machine definition. -/
def parallel_state : List (List String) := [mainChain, [precheckTaskName]]

/-- Sequencing edges inside one branch: each state completes before its
successor starts. -/
def branchEdges : List String → List (String × String)
  | a :: b :: rest => (a, b) :: branchEdges (b :: rest)
  | _ => []

/-- All sequencing constraints of the parallel definition: edges within
each branch, none across branches. -/
def programEdges (branches : List (List String)) : List (String × String) :=
  (branches.map branchEdges).flatten

def allStates (branches : List (List String)) : List String := branches.flatten

/-- A complete execution of the state machine: every state starts and
completes exactly once, starts precede completions, only the machine's
states appear, and every sequencing edge is respected.  Anything else —
in particular the relative order of the two branches — is free. -/
def ValidTrace (branches : List (List String)) (t : List (String × Bool)) : Prop :=
  (∀ s ∈ allStates branches,
    (s, true) ∈ t ∧ (s, false) ∈ t ∧ t.indexOf (s, true) < t.indexOf (s, false))
  ∧ (∀ e ∈ t, e.1 ∈ allStates branches)
  ∧ t.Nodup
  ∧ ∀ p ∈ programEdges branches, t.indexOf (p.1, false) < t.indexOf (p.2, true)

instance (branches : List (List String)) (t : List (String × Bool)) :
    Decidable (ValidTrace branches t) := by
  unfold ValidTrace
  infer_instance

/-- C8 (amended): in every execution the post-processing stages run
sequentially after the Map state inside the first parallel branch — merge
after map, add-title after merge, final verification after add-title —
but they are not ordered after the independent-verification branch: the
two branches join only at the end of the machine, so post-processing can
begin before the verification branch completes. -/
theorem workflow_order_spec (t : List (String × Bool))
    (h : ValidTrace parallel_state t) :
    t.indexOf (mapStateName, false) < t.indexOf (javaTaskName, true)
    ∧ t.indexOf (javaTaskName, false) < t.indexOf (addTitleTaskName, true)
    ∧ t.indexOf (addTitleTaskName, false) < t.indexOf (postcheckTaskName, true) := by
  obtain ⟨-, -, -, hedge⟩ := h
  exact ⟨hedge (mapStateName, javaTaskName) (by decide),
    hedge (javaTaskName, addTitleTaskName) (by decide),
    hedge (addTitleTaskName, postcheckTaskName) (by decide)⟩

/-- A valid execution in which the verification branch starts first but
finishes after the post-processing stages have begun. -/
def interleavedTrace : List (String × Bool) :=
  [(precheckTaskName, true), (mapStateName, true), (mapStateName, false),
   (javaTaskName, true), (javaTaskName, false),
   (addTitleTaskName, true), (addTitleTaskName, false),
   (precheckTaskName, false),
   (postcheckTaskName, true), (postcheckTaskName, false)]

/-- Witness for `workflow_order_spec` at a concrete valid trace. -/
theorem workflow_order_spec_witness :
    interleavedTrace.indexOf (mapStateName, false)
      < interleavedTrace.indexOf (javaTaskName, true)
    ∧ interleavedTrace.indexOf (javaTaskName, false)
      < interleavedTrace.indexOf (addTitleTaskName, true)
    ∧ interleavedTrace.indexOf (addTitleTaskName, false)
      < interleavedTrace.indexOf (postcheckTaskName, true) :=
  workflow_order_spec interleavedTrace (by decide)

/-- An execution that runs the whole first branch, post-processing
included, before the verification branch even starts. -/
def branchOneFirstTrace : List (String × Bool) :=
  [(mapStateName, true), (mapStateName, false),
   (javaTaskName, true), (javaTaskName, false),
   (addTitleTaskName, true), (addTitleTaskName, false),
   (postcheckTaskName, true), (postcheckTaskName, false),
   (precheckTaskName, true), (precheckTaskName, false)]

/-- C8 counterexample: the claim says post-processing begins only after
both parallel branches have completed, but `branchOneFirstTrace` is a
valid execution of the machine built in app.py in which the add-title
stage starts before the independent-verification branch completes: the
post-processing tasks are chained inside the first branch, not after the
join. -/
theorem postprocess_before_join_counterexample :
    ValidTrace parallel_state branchOneFirstTrace
    ∧ ¬ (branchOneFirstTrace.indexOf (precheckTaskName, false)
          < branchOneFirstTrace.indexOf (addTitleTaskName, true)) := by
  constructor
  · decide
  · decide

end PDFA
